import Mathlib

/-!
Verification of the Theia data-lifecycle subsystem: the ClickHouse schema-version
migrator (plugins/clickhouse-schema-management main.go, given as src/unnamed/part_000,
and its shell counterpart build/charts/theia/provisioning/datasources/migrate.sh) and
the ClickHouse storage monitor (plugins/clickhouse-monitor).

The Go migrator is embedded as pure functions over an abstract store: queries are
inputs (`Except` values describing what the store would answer on every retry of the
poll loop), the side effects of a run are an explicit event trace, and the version
table is a list of rows threaded through the run.  The monitor binary itself is not
among the given sources (only its unit tests are), so its round logic is modelled from
the specification and pinned against the expectations of
src/plugins/clickhouse-monitor/main_test.go.
-/

namespace Theia

/-! ## Version order and migrators (src/unnamed/part_000, lines 31-61) -/

/-- The build-time version-to-index map of the Go migrator: `versionToIndex` maps
each recognized version string to its position on the migration path. -/
def versionToIndex : List (String × Int) := [("v0.1.0", 0), ("v0.2.0", 1)]

/-- Map lookup `versionToIndex[version]` (source lines 90, 95). -/
def lookupVersion (v : String) : Option Int := List.lookup v versionToIndex

/-- The shipped forward migrator for the step v0.1.0 -> v0.2.0.  It is a no-op and
returns no error (`return nil`, source line 55-57); the `*sql.DB` argument is dropped
because the migrator never touches the store.  `none` = no error. -/
def migrateV010ToV020 : Option String := none

/-- The shipped backward migrator for the step v0.2.0 -> v0.1.0 (source line 59-61),
a no-op returning no error. -/
def migrateV020ToV010 : Option String := none

/-- The ordered forward migrator chain (source lines 36-38). -/
def upgradingMigrators : List (Option String) := [migrateV010ToV020]

/-- The ordered backward migrator chain (source lines 39-41). -/
def downgradingMigrators : List (Option String) := [migrateV020ToV010]

/-- Retry interval of the query poll loops, in seconds (source line 52:
`queryRetryInterval = 1 * time.Second`). -/
def queryRetryIntervalSeconds : Nat := 1

/-- Overall timeout of the query poll loops, in seconds (source line 50:
`queryTimeout = 10 * time.Second`). -/
def queryTimeoutSeconds : Nat := 10

/-! ## Loop index ranges

The two migration loops of the Go `main` (source lines 100-109) and the two `seq`
loops of migrate.sh (lines 58-68) walk integer index ranges.  `ascRange lo hi` is the
index sequence of `for i := lo; i < hi; i++` and `descRange hi lo` the index sequence
of `for i := hi; i >= lo; i--` (equally of `seq lo (hi-1)` and `seq hi -1 lo`): both
are empty when the start already fails the bound. -/

/-- Indices visited by `for i := lo; i < hi; i++`, in order. -/
def ascRange (lo hi : Int) : List Int :=
  (List.range (hi - lo).toNat).map (fun (k : Nat) => lo + (k : Int))

/-- Indices visited by `for i := hi; i >= lo; i--`, in order. -/
def descRange (hi lo : Int) : List Int :=
  (List.range (hi + 1 - lo).toNat).map (fun (k : Nat) => hi - (k : Int))

/-! ## Observable events of a migration run -/

/-- One observable action of a migrator run.  `upMigrator i` / `downMigrator i`
record the invocation of the i-th forward / backward migrator (the Go code discards
the migrators' return values, source lines 102 and 107, so the invocation itself is
the whole observable effect). -/
inductive Event where
  | logError (tag : String)
  | logInfo (tag : String)
  | connect
  | upMigrator (i : Int)
  | downMigrator (i : Int)
  | writeVersion (v : String)
deriving DecidableEq

/-- Migrator invocations of the Go `main` given the resolved data version index `d`
and the Theia version index `t` (source lines 100-109): forward steps
`for i := d; i < t; i++`, backward steps `for i := t - 1; i >= d; i--`. -/
def goMigrationSteps (d t : Int) : List Event :=
  if d < t then (ascRange d t).map Event.upMigrator
  else if t < d then (descRange (t - 1) d).map Event.downMigrator
  else []

/-- Migrator invocations of migrate.sh given data version index `d` and chart version
index `t` (migrate.sh lines 57-68): forward steps `seq d (t-1)`, backward steps
`seq (d-1) -1 t`. -/
def shMigrationSteps (d t : Int) : List Event :=
  if d < t then (ascRange d t).map Event.upMigrator
  else if t < d then (descRange (d - 1) t).map Event.downMigrator
  else []

/-- The completion log line of the Go migration branch taken (source lines
104, 109, 111). -/
def migrationFinishedLog (d t : Int) : Event :=
  if d < t then Event.logInfo "UpgradeFinished"
  else if t < d then Event.logInfo "DowngradeFinished"
  else Event.logInfo "SameVersion"

/-! ## getDataVersion (src/unnamed/part_000, lines 133-167)

The store is abstracted by the outcome each query would have on every attempt of its
poll loop: the loops of `getDataVersion` retry a failing query every
`queryRetryIntervalSeconds` until `queryTimeoutSeconds`, so over a store whose answer
does not change between attempts a loop either succeeds at once or exhausts the
timeout and surfaces `wait.ErrWaitTimeout` ("timed out waiting for the condition"). -/

/-- Message of `wait.ErrWaitTimeout`, what a poll loop returns once
`queryTimeoutSeconds` elapses without a successful attempt. -/
def pollTimeoutMsg : String := "timed out waiting for the condition"

/-- The literal the Go code substring-matches to recognize a missing version table
(source line 138). -/
def unknownTableMsg : String := "Table default.migrate_version doesn't exist"

/-- Substring test, the model of Go `strings.Contains`. -/
def containsSubstr (s pat : String) : Bool := decide (pat.toList <:+: s.toList)

/-- Legacy fallback of `getDataVersion` (source lines 150-165): the version table was
missing, so probe `SELECT COUNT() FROM flows`.  Success means the data predates
versioning (v0.1.0); persistent failure exhausts the poll loop and returns its
timeout error, with the version still "not found". -/
def legacyFallback (flowsQuery : Except String Nat) : Except String String :=
  match flowsQuery with
  | Except.ok _ => Except.ok "v0.1.0"
  | Except.error _ => Except.error pollTimeoutMsg

/-- Model of `getDataVersion` (source lines 133-167).  `versionQuery` is the
per-attempt outcome of `SELECT version FROM migrate_version`, `flowsQuery` of
`SELECT COUNT() FROM flows`.  A version-read error whose message contains
`unknownTableMsg` sets the version to "not found" and ends the poll loop; any other
error is retried until the loop times out. -/
def getDataVersion (versionQuery : Except String String)
    (flowsQuery : Except String Nat) : Except String String :=
  match versionQuery with
  | Except.ok v => if v = "not found" then legacyFallback flowsQuery else Except.ok v
  | Except.error msg =>
      if containsSubstr msg unknownTableMsg then legacyFallback flowsQuery
      else Except.error pollTimeoutMsg

/-! ## setDataVersion, Go and shell -/

/-- Model of the Go `setDataVersion` (source lines 119-131) acting on the rows of the
`migrate_version` table: `INSERT INTO migrate_version (*) VALUES (?)` appends a row
and deletes nothing. -/
def setDataVersion (rows : List String) (version : String) : List String :=
  rows ++ [version]

/-- Model of the shell `setDataVersion` (migrate.sh lines 27-36): create the table
when it is missing (`none`), delete every row with `version != ''`, then insert the
new version. -/
def setDataVersionSh (table : Option (List String)) (version : String) : List String :=
  match table with
  | none => [version]
  | some rows => rows.filter (fun r => r = "") ++ [version]

/-! ## The Go main (src/unnamed/part_000, lines 63-117) -/

/-- What the abstract store answers the migrator's queries, plus the current rows of
the version table.  Each `Except` field is the (attempt-independent) outcome of one
query; `connectOk` stands for `connectLoop` succeeding within its own retry budget,
`writeOk` for the `setDataVersion` poll loop succeeding. -/
structure StoreInput where
  connectOk : Bool
  versionQuery : Except String String
  flowsQuery : Except String Nat
  theiaVersionEnv : Option String
  writeOk : Bool
  versionTable : List String

/-- `expectedNumMigrators := len(versionToIndex) - 1` (source line 64). -/
def expectedNumMigrators : Nat := versionToIndex.length - 1

/-- The startup invariant check of `main` (source lines 64-70): each count mismatch
is logged with `klog.ErrorS` and nothing else happens — no return, no exit. -/
def startupCheckEvents (upMigs downMigs : List (Option String)) : List Event :=
  (if upMigs.length ≠ expectedNumMigrators
    then [Event.logError "NoEnoughUpgradeMigrators"] else []) ++
  (if downMigs.length ≠ expectedNumMigrators
    then [Event.logError "NoEnoughDowngradeMigrators"] else [])

/-- Trace and final version table of `main` from `getDataVersion` on (source lines
76-117).  Mirrors the source's control flow: error from `getDataVersion` aborts; the
literal "not found" answer takes the no-schema branch; a missing THEIA_VERSION
aborts; an unrecognized version aborts; otherwise the migration loops run and
`setDataVersion` is invoked unconditionally afterwards. -/
def afterConnectRun (inp : StoreInput) : List Event × List String :=
  match getDataVersion inp.versionQuery inp.flowsQuery with
  | Except.error _ => ([Event.logError "GetDataVersionFailed"], inp.versionTable)
  | Except.ok dataVersion =>
    if dataVersion = "not found" then ([Event.logInfo "NoDataSchema"], inp.versionTable)
    else
      match inp.theiaVersionEnv with
      | none => ([Event.logError "GetTheiaVersionFailed"], inp.versionTable)
      | some theiaVersion =>
        match lookupVersion dataVersion with
        | none => ([Event.logError "UnrecognizedDataVersion"], inp.versionTable)
        | some d =>
          match lookupVersion theiaVersion with
          | none => ([Event.logError "UnrecognizedTheiaVersion"], inp.versionTable)
          | some t =>
            if inp.writeOk then
              (goMigrationSteps d t ++ [migrationFinishedLog d t,
                  Event.writeVersion theiaVersion],
               setDataVersion inp.versionTable theiaVersion)
            else
              (goMigrationSteps d t ++ [migrationFinishedLog d t,
                  Event.logError "SetDataVersionFailed"],
               inp.versionTable)

/-- Connection phase of `main` (source lines 71-75): a failed `connectLoop` is logged
and aborts the run, a successful one is followed by `afterConnectRun`. -/
def mainRunBody (inp : StoreInput) : List Event × List String :=
  if inp.connectOk then
    (Event.connect :: (afterConnectRun inp).1, (afterConnectRun inp).2)
  else ([Event.logError "ConnectFailed"], inp.versionTable)

/-- The whole Go `main` (source lines 63-117), over given migrator chains and store:
the startup count check only prepends log events, then the body runs regardless. -/
def mainRun (upMigs downMigs : List (Option String)) (inp : StoreInput) :
    List Event × List String :=
  (startupCheckEvents upMigs downMigs ++ (mainRunBody inp).1, (mainRunBody inp).2)

/-! ## Storage monitor (plugins/clickhouse-monitor)

Modelled from the spec: plugins/clickhouse-monitor/main.go is not among the given
sources — only its unit tests are (src/plugins/clickhouse-monitor/main_test.go).
The round logic below follows spec sections 4.3, 4.4 and the SQL statement shapes of
section 6, and is pinned by the mock expectations of `TestMonitorMemoryWithDeletion`
and `TestMonitorMemoryWithoutDeletion`: trigger condition
`freeSpace < allocatedSpace * threshold`, cutoff from
`SELECT timeInserted FROM <table> LIMIT 1 OFFSET <deleteRowNum>`, one
`ALTER TABLE <t> DELETE WHERE timeInserted < toDateTime(<cutoff>)` per table, base
table first then the views in their configured order.  Timestamps are modelled as
naturals, the disk numbers and the two configured fractions as rationals. -/

/-- Modelled from the spec: monitor configuration (spec section 3, RetentionConfig;
environment variables TABLE_NAME, MV_NAMES, STORAGE_SIZE, THRESHOLD,
DELETE_PERCENTAGE of section 6). -/
structure MonitorConfig where
  tableName : String
  mvNames : List String
  allocatedSpace : ℚ
  threshold : ℚ
  deletePercentage : ℚ

/-- One issued `ALTER TABLE <table> DELETE WHERE timeInserted < toDateTime(<cutoff>)`
statement. -/
structure DeleteStmt where
  table : String
  cutoff : Nat
deriving DecidableEq

/-- Modelled from the spec: `offset = floor(rowCount * deletePercentage)` (spec
section 4.3; the missing Go computes `uint64(float64(count) * deletePercentage)`,
truncation of a non-negative product, i.e. the floor). -/
def getDeleteRowNum (rowCount : Nat) (deletePercentage : ℚ) : Nat :=
  (⌊(rowCount : ℚ) * deletePercentage⌋).toNat

/-- Modelled from the spec: the retention cutoff resolver (spec section 4.3).
`rows` is the base table's insertion-timestamp column in ascending order; the row
count is its length.  Offset 0 is the sentinel "no cutoff" outcome; otherwise the
cutoff is the answer of `SELECT timeInserted FROM <table> LIMIT 1 OFFSET <offset>`,
the row at 0-indexed position `offset` — the shape pinned by
`TestMonitorMemoryWithDeletion`, which expects `LIMIT 1 OFFSET 5` for row count 10
and deletePercentage 0.5 (`none` also when the offset falls past the last row, where
the store returns no row). -/
def getTimeBoundary (rows : List Nat) (deletePercentage : ℚ) : Option Nat :=
  if getDeleteRowNum rows.length deletePercentage = 0 then none
  else rows.get? (getDeleteRowNum rows.length deletePercentage)

/-- Resolver following the claim's words instead of the source: the cutoff read via
`LIMIT 1 OFFSET offset-1`, i.e. the row at 0-indexed position `offset - 1`.  Stated
only to be compared against `getTimeBoundary`. -/
def getTimeBoundaryOffsetMinusOne (rows : List Nat) (deletePercentage : ℚ) : Option Nat :=
  if getDeleteRowNum rows.length deletePercentage = 0 then none
  else rows.get? (getDeleteRowNum rows.length deletePercentage - 1)

/-- Modelled from the spec: one monitor round past a successful disk sample (spec
section 4.4, steps 2-4).  Eviction is warranted iff
`freeSpace < allocatedSpace * threshold`; when warranted and a cutoff resolves, one
delete statement per table is issued — base table first, then each view in
configured order — all with that cutoff; a "no cutoff" outcome skips the round. -/
def monitorMemory (cfg : MonitorConfig) (freeSpace : ℚ) (rows : List Nat) :
    List DeleteStmt :=
  if freeSpace < cfg.allocatedSpace * cfg.threshold then
    match getTimeBoundary rows cfg.deletePercentage with
    | none => []
    | some cutoff =>
        (cfg.tableName :: cfg.mvNames).map (fun t => { table := t, cutoff := cutoff })
  else []

/-! ## Size parser (plugins/clickhouse-monitor)

Modelled from the spec: `parseSize` lives in the missing
plugins/clickhouse-monitor/main.go; spec section 4.1 gives its contract (a decimal
number, integer or fractional, followed by an optional unit suffix; binary family
Ki/Mi/Gi/... multiplies by powers of 1024, decimal family K/M/G/... by powers of
1000; the result is rounded to the nearest integer byte count; anything else is an
invalid-size-format error), and `TestParseSize` pins parse("500Mi") = 500*1024^2 and
parse("2.5G") = 2.5*1000^3. -/

/-- Value of a digit string, most significant first. -/
def digitsToNat (cs : List Char) : Nat :=
  cs.foldl (fun n c => 10 * n + (c.toNat - 48)) 0

/-- Modelled from the spec: the number part of a size string, `<digits>` or
`<digits>.<digits>`.  Returns the mantissa scaled by `10 ^ fracLen` together with
`fracLen`, so the parsed value is `mantissa / 10 ^ fracLen`. -/
def parseDecimalNumber (cs : List Char) : Option (Nat × Nat) :=
  let intPart := cs.takeWhile Char.isDigit
  let rest := cs.dropWhile Char.isDigit
  if intPart.isEmpty then none
  else
    match rest with
    | [] => some (digitsToNat intPart, 0)
    | c :: fracPart =>
      if c = '.' ∧ ¬ fracPart.isEmpty ∧ fracPart.all Char.isDigit then
        some (digitsToNat intPart * 10 ^ fracPart.length + digitsToNat fracPart,
          fracPart.length)
      else none

/-- Modelled from the spec: the two unit families of section 4.1 — binary suffixes
`Ki, Mi, Gi, Ti, ...` multiply by `1024 ^ n`, decimal suffixes `K, M, G, T, ...` by
`1000 ^ n`, no suffix means bytes; an unrecognized suffix is an error. -/
def unitMultiplier : String → Option Nat
  | "" => some 1
  | "K" => some 1000
  | "M" => some (1000 ^ 2)
  | "G" => some (1000 ^ 3)
  | "T" => some (1000 ^ 4)
  | "P" => some (1000 ^ 5)
  | "E" => some (1000 ^ 6)
  | "Ki" => some 1024
  | "Mi" => some (1024 ^ 2)
  | "Gi" => some (1024 ^ 3)
  | "Ti" => some (1024 ^ 4)
  | "Pi" => some (1024 ^ 5)
  | "Ei" => some (1024 ^ 6)
  | _ => none

/-- Round-to-nearest of the fraction `a / b` (ties rounded up), in naturals. -/
def roundDiv (a b : Nat) : Nat := (2 * a + b) / (2 * b)

/-- Modelled from the spec: `parseSize` (spec section 4.1).  The text splits into a
longest numeric part (digits and dots) and the remaining unit suffix; the byte count
is the number times the suffix multiplier, rounded to the nearest integer. -/
def parseSize (s : String) : Except String Nat :=
  match parseDecimalNumber (s.toList.takeWhile (fun c => c.isDigit || c = '.')),
      unitMultiplier (String.mk (s.toList.dropWhile (fun c => c.isDigit || c = '.'))) with
  | some (mantissa, fracLen), some mult =>
      Except.ok (roundDiv (mantissa * mult) (10 ^ fracLen))
  | _, _ => Except.error "invalid size format"

deriving instance DecidableEq for Except

/-! ## Concrete store inputs used by the theorems below -/

/-- Monitor configuration of the unit tests: base table `flows`, three views,
allocatedSpace 10, threshold 0.5, deletePercentage 0.5. -/
def testConfig : MonitorConfig :=
  { tableName := "flows",
    mvNames := ["flows_pod_view", "flows_node_view", "flows_policy_view"],
    allocatedSpace := 10, threshold := 1/2, deletePercentage := 1/2 }

/-- Store input of a re-run at an unchanged version: the version table holds
`v0.2.0` and THEIA_VERSION is `v0.2.0`. -/
def rerunSameVersionInput : StoreInput :=
  { connectOk := true, versionQuery := Except.ok "v0.2.0", flowsQuery := Except.ok 0,
    theiaVersionEnv := some "v0.2.0", writeOk := true, versionTable := ["v0.2.0"] }

/-- Store input of a fresh store: neither `migrate_version` nor `flows` exists, so
the version read fails with the unknown-table message and the flows probe fails on
every attempt. -/
def noSchemaInput : StoreInput :=
  { connectOk := true, versionQuery := Except.error unknownTableMsg,
    flowsQuery := Except.error "Table default.flows doesn't exist",
    theiaVersionEnv := some "v0.2.0", writeOk := true, versionTable := [] }

/-- A forward migrator chain of the wrong length (two migrators where
`expectedNumMigrators` is one). -/
def mismatchUpMigrators : List (Option String) := [none, none]

/-- Store input of a healthy v0.1.0 -> v0.2.0 upgrade run. -/
def upgradeInput : StoreInput :=
  { connectOk := true, versionQuery := Except.ok "v0.1.0", flowsQuery := Except.ok 0,
    theiaVersionEnv := some "v0.2.0", writeOk := true, versionTable := ["v0.1.0"] }

/-! ## Helper lemmas -/

/-- Offset of the test scenario: row count 10, deletePercentage 0.5, offset 5. -/
theorem getDeleteRowNum_ten_half : getDeleteRowNum 10 (1/2) = 5 := by
  unfold getDeleteRowNum
  norm_num
  decide

/-- Cutoff of the test scenario: ten ascending timestamps, offset 5, cutoff is the
timestamp at 0-indexed position 5. -/
theorem getTimeBoundary_range10 : getTimeBoundary (List.range 10) (1/2) = some 5 := by
  unfold getTimeBoundary
  rw [List.length_range, getDeleteRowNum_ten_half]
  decide

/-- Membership in the index range of `for i := lo; i < hi; i++`. -/
theorem mem_ascRange (lo hi i : Int) : i ∈ ascRange lo hi ↔ lo ≤ i ∧ i < hi := by
  unfold ascRange
  simp only [List.mem_map, List.mem_range]
  constructor
  · rintro ⟨k, hk, rfl⟩
    omega
  · rintro ⟨h1, h2⟩
    exact ⟨(i - lo).toNat, by omega, by omega⟩

/-- The forward loop visits its indices in strictly increasing order. -/
theorem ascRange_pairwise (lo hi : Int) : (ascRange lo hi).Pairwise (· < ·) := by
  unfold ascRange
  rw [List.pairwise_map]
  refine (List.pairwise_lt_range _).imp ?_
  intro a b h
  show lo + (a : Int) < lo + (b : Int)
  omega

/-- The two recognized versions and their indices, read off `versionToIndex`. -/
theorem lookupVersion_cases (v : String) (i : Int) (h : lookupVersion v = some i) :
    (v = "v0.1.0" ∧ i = 0) ∨ (v = "v0.2.0" ∧ i = 1) := by
  unfold lookupVersion versionToIndex at h
  rcases eq_or_ne v "v0.1.0" with h1 | h1
  · subst h1
    simp [List.lookup] at h
    exact Or.inl ⟨rfl, h.symm⟩
  · rcases eq_or_ne v "v0.2.0" with h2 | h2
    · subst h2
      simp [List.lookup] at h
      exact Or.inr ⟨rfl, h.symm⟩
    · simp only [List.lookup] at h
      rw [show (v == "v0.1.0") = false from beq_eq_false_iff_ne.mpr h1,
        show (v == "v0.2.0") = false from beq_eq_false_iff_ne.mpr h2] at h
      simp at h

/-! ## C1 -/

/-- C1: refuted on the Go binary and evaluated at the claimed one-step downgrade.
For `index(from) > index(to)` the Go loop `for i := theiaVersionIndex - 1;
i >= dataVersionIndex; i--` (src/unnamed/part_000 line 106) starts below its own
lower bound, so every downgrade run invokes zero backward migrators; migrate.sh
(lines 64-68) walks the mirrored range `seq (dataVersionIndex-1) -1
theiaVersionIndex` and invokes exactly the one claimed backward migrator for
v0.2.0 -> v0.1.0. -/
theorem goDowngradeLoopNeverRuns :
    goMigrationSteps 1 0 = [] ∧
    shMigrationSteps 1 0 = [Event.downMigrator 0] ∧
    (∀ d t : Int, t < d → goMigrationSteps d t = []) := by
  refine ⟨by decide, by decide, ?_⟩
  intro d t h
  simp only [goMigrationSteps]
  rw [if_neg (by omega), if_pos h, descRange]
  have h0 : (t - 1 + 1 - d).toNat = 0 := by omega
  rw [h0]
  rfl

/-! ## C2 -/

/-- C2: delete statements are issued iff `freeSpace < threshold * allocatedSpace`
(strict; in particular none at or above the boundary); when the condition holds and
a cutoff resolves, the round issues exactly one delete per table — the base table
first, then each configured view in order — all with the identical cutoff; when the
condition fails, the round issues no delete statement. -/
theorem monitorDeleteIffThreshold (cfg : MonitorConfig) (freeSpace : ℚ)
    (rows : List Nat) :
    (¬ freeSpace < cfg.threshold * cfg.allocatedSpace →
        monitorMemory cfg freeSpace rows = []) ∧
    (freeSpace < cfg.threshold * cfg.allocatedSpace →
      (∀ cutoff, getTimeBoundary rows cfg.deletePercentage = some cutoff →
          monitorMemory cfg freeSpace rows =
            (cfg.tableName :: cfg.mvNames).map
              (fun t => { table := t, cutoff := cutoff })) ∧
      (getTimeBoundary rows cfg.deletePercentage = none →
          monitorMemory cfg freeSpace rows = [])) := by
  constructor
  · intro h
    have h2 : ¬ freeSpace < cfg.allocatedSpace * cfg.threshold := by
      rw [mul_comm]; exact h
    simp [monitorMemory, h2]
  · intro h
    have h2 : freeSpace < cfg.allocatedSpace * cfg.threshold := by
      rw [mul_comm]; exact h
    constructor
    · intro cutoff hc
      simp [monitorMemory, h2, hc]
    · intro hc
      simp [monitorMemory, h2, hc]

/-- C2 witness: the two unit-test scenarios (free 4 of 10 with threshold 0.5 ->
four deletes at cutoff 5; free 6 -> none) and the exact boundary free 5 -> none. -/
theorem monitorDeleteIffThreshold_witness :
    monitorMemory testConfig 4 (List.range 10) =
      [⟨"flows", 5⟩, ⟨"flows_pod_view", 5⟩, ⟨"flows_node_view", 5⟩,
        ⟨"flows_policy_view", 5⟩] ∧
    monitorMemory testConfig 6 (List.range 10) = [] ∧
    monitorMemory testConfig 5 (List.range 10) = [] := by
  refine ⟨?_, ?_, ?_⟩
  · have h := ((monitorDeleteIffThreshold testConfig 4 (List.range 10)).2
      (by norm_num [testConfig])).1 5 getTimeBoundary_range10
    rw [h]
    decide
  · exact (monitorDeleteIffThreshold testConfig 6 (List.range 10)).1
      (by norm_num [testConfig])
  · exact (monitorDeleteIffThreshold testConfig 5 (List.range 10)).1
      (by norm_num [testConfig])

/-! ## C3 -/

/-- C3 counterexample: at row count 10 and deletePercentage 0.5 (offset 5) the
resolver reads the row at 0-indexed position 5 — `LIMIT 1 OFFSET 5`, as
TestMonitorMemoryWithDeletion pins — while the claimed `LIMIT 1 OFFSET offset-1`
semantics would read position 4; the two disagree. -/
theorem cutoffNotAtOffsetMinusOne :
    getTimeBoundary (List.range 10) (1/2) = some 5 ∧
    getTimeBoundaryOffsetMinusOne (List.range 10) (1/2) = some 4 ∧
    getTimeBoundary (List.range 10) (1/2) ≠
      getTimeBoundaryOffsetMinusOne (List.range 10) (1/2) := by
  have h2 : getTimeBoundaryOffsetMinusOne (List.range 10) (1/2) = some 4 := by
    unfold getTimeBoundaryOffsetMinusOne
    rw [List.length_range, getDeleteRowNum_ten_half]
    decide
  refine ⟨getTimeBoundary_range10, h2, ?_⟩
  rw [getTimeBoundary_range10, h2]
  decide

/-- C3 amended: offset `floor(N * p)`; offset 0 is the no-cutoff sentinel;
otherwise the cutoff is the timestamp at 0-indexed position `offset` (`LIMIT 1
OFFSET offset` semantics, the first retained row), and the cutoff is exclusive: on
strictly ascending timestamps a row is strictly older than the cutoff exactly when
its index is below the offset, so the boundary row and everything newer are
retained. -/
theorem cutoffAtOffsetExclusive (rows : List Nat) (p : ℚ) :
    (getDeleteRowNum rows.length p = 0 → getTimeBoundary rows p = none) ∧
    (getDeleteRowNum rows.length p ≠ 0 →
        getTimeBoundary rows p = rows.get? (getDeleteRowNum rows.length p)) ∧
    (rows.Pairwise (· < ·) → ∀ c, getTimeBoundary rows p = some c →
        ∀ i : Fin rows.length,
          (rows.get i < c ↔ (i : Nat) < getDeleteRowNum rows.length p)) := by
  refine ⟨fun h => by simp [getTimeBoundary, h],
    fun h => by simp [getTimeBoundary, h], ?_⟩
  intro hsort c hc i
  by_cases h0 : getDeleteRowNum rows.length p = 0
  · rw [getTimeBoundary, if_pos h0] at hc
    exact absurd hc (by simp)
  · rw [getTimeBoundary, if_neg h0] at hc
    obtain ⟨hlt, hget⟩ := List.get?_eq_some.mp hc
    rcases Nat.lt_trichotomy (i : Nat) (getDeleteRowNum rows.length p) with hi | hi | hi
    · refine ⟨fun _ => hi, fun _ => ?_⟩
      have hp := List.pairwise_iff_get.mp hsort i ⟨_, hlt⟩ hi
      rw [hget] at hp
      exact hp
    · have hieq : rows.get i = c := by
        rw [← hget]
        exact congrArg rows.get (Fin.ext hi)
      constructor
      · intro hless
        rw [hieq] at hless
        exact absurd hless (lt_irrefl c)
      · intro h2
        rw [hi] at h2
        exact absurd h2 (lt_irrefl _)
    · have hp := List.pairwise_iff_get.mp hsort ⟨_, hlt⟩ i hi
      rw [hget] at hp
      exact ⟨fun hless => absurd hless (not_lt_of_gt hp), fun h2 => absurd h2 (by omega)⟩

/-- C3 amended witness: for ten ascending timestamps and deletePercentage 0.5 the
cutoff is the row at position 5, and the row at position 7 (newer than the cutoff)
is not strictly older than it. -/
theorem cutoffAtOffsetExclusive_witness :
    getTimeBoundary (List.range 10) (1/2) = (List.range 10).get? 5 ∧
    ((List.range 10).get ⟨7, by decide⟩ < 5 ↔
        (7 : Nat) < getDeleteRowNum (List.range 10).length (1/2)) := by
  constructor
  · have h := (cutoffAtOffsetExclusive (List.range 10) (1/2)).2.1
      (by rw [List.length_range, getDeleteRowNum_ten_half]; decide)
    rw [h, List.length_range, getDeleteRowNum_ten_half]
  · exact (cutoffAtOffsetExclusive (List.range 10) (1/2)).2.2 (by decide) 5
      getTimeBoundary_range10 ⟨7, by decide⟩

/-! ## C4 -/

/-- C4: for recognized versions with `index(from) < index(to)`, the run connects,
invokes exactly the forward migrators for steps `index(from) .. index(to)-1` (the
membership equivalence), in strictly increasing order (the pairwise conjunct), each
shipped migrator succeeding, and writes `toVersion` to the version table after all
of them (the write event is last in the trace, and the table gains `toVersion`). -/
theorem upgradeAppliesForwardThenPersists (vFrom vTo : String) (d t : Int)
    (tbl : List String)
    (hFrom : lookupVersion vFrom = some d) (hTo : lookupVersion vTo = some t)
    (hlt : d < t) :
    mainRun upgradingMigrators downgradingMigrators
        { connectOk := true, versionQuery := Except.ok vFrom,
          flowsQuery := Except.ok 0, theiaVersionEnv := some vTo,
          writeOk := true, versionTable := tbl } =
      (Event.connect :: ((ascRange d t).map Event.upMigrator ++
          [Event.logInfo "UpgradeFinished", Event.writeVersion vTo]),
        tbl ++ [vTo]) ∧
    (∀ i : Int, i ∈ ascRange d t ↔ d ≤ i ∧ i < t) ∧
    (ascRange d t).Pairwise (· < ·) ∧
    (∀ i ∈ ascRange d t, upgradingMigrators.get? i.toNat = some none) := by
  rcases lookupVersion_cases vFrom d hFrom with ⟨hv, hd⟩ | ⟨hv, hd⟩ <;>
    rcases lookupVersion_cases vTo t hTo with ⟨hw, ht⟩ | ⟨hw, ht⟩ <;>
      subst hv <;> subst hw <;> subst hd <;> subst ht
  · exact absurd hlt (by decide)
  · refine ⟨rfl, fun i => (mem_ascRange 0 1 i), ascRange_pairwise 0 1, ?_⟩
    intro i hi
    have hm := (mem_ascRange 0 1 i).mp hi
    have hi0 : i = 0 := by omega
    subst hi0
    rfl
  · exact absurd hlt (by decide)
  · exact absurd hlt (by decide)

/-- C4 witness: the spec's migration scenario, dataVersion v0.1.0 and targetVersion
v0.2.0 — one forward migrator invocation, then the version-table write. -/
theorem upgradeAppliesForwardThenPersists_witness :
    mainRun upgradingMigrators downgradingMigrators upgradeInput =
      ([Event.connect, Event.upMigrator 0, Event.logInfo "UpgradeFinished",
        Event.writeVersion "v0.2.0"], ["v0.1.0", "v0.2.0"]) :=
  ((upgradeAppliesForwardThenPersists "v0.1.0" "v0.2.0" 0 1 ["v0.1.0"]
    (by decide) (by decide) (by decide)).1).trans (by decide)

/-! ## C5 -/

/-- C5: refuted at the claimed no-op re-run.  With `dataVersion == targetVersion`
(`v0.2.0` both) the run invokes no migrator, but `setDataVersion` still runs
unconditionally (src/unnamed/part_000 line 113) and its plain INSERT appends a
duplicate row, so the version table does not stay unchanged. -/
theorem rerunSameVersionDuplicatesRow :
    mainRun upgradingMigrators downgradingMigrators rerunSameVersionInput =
      ([Event.connect, Event.logInfo "SameVersion", Event.writeVersion "v0.2.0"],
        ["v0.2.0", "v0.2.0"]) ∧
    (mainRun upgradingMigrators downgradingMigrators rerunSameVersionInput).2 ≠
      rerunSameVersionInput.versionTable := by decide

/-! ## C6 -/

/-- C6: refuted on the Go binary.  The Go `setDataVersion` issues a plain
`INSERT INTO migrate_version` and deletes nothing, so a table already holding a row
ends up with two; the shell `setDataVersion` (migrate.sh lines 27-36) does replace
the prior row, leaving a single record. -/
theorem setDataVersionAppendsNotReplaces :
    setDataVersion ["v0.1.0"] "v0.2.0" = ["v0.1.0", "v0.2.0"] ∧
    (setDataVersion ["v0.1.0"] "v0.2.0").length = 2 ∧
    setDataVersionSh (some ["v0.1.0"]) "v0.2.0" = ["v0.2.0"] := by decide

/-! ## C7 -/

/-- C7: the first half of the claim holds (version table missing, flows table
present -> v0.1.0), but when the flows table is also absent `getDataVersion`
exhausts the flows poll loop and returns the timeout error, so `main` logs a
failure; the graceful `NoDataSchema` branch of main (source lines 81-84) is never
reached. -/
theorem noSchemaFallbackReturnsError :
    getDataVersion (Except.error unknownTableMsg) (Except.ok 42) =
      Except.ok "v0.1.0" ∧
    getDataVersion (Except.error unknownTableMsg)
        (Except.error "Table default.flows doesn't exist") =
      Except.error pollTimeoutMsg ∧
    (mainRun upgradingMigrators downgradingMigrators noSchemaInput).1 =
      [Event.connect, Event.logError "GetDataVersionFailed"] ∧
    Event.logInfo "NoDataSchema" ∉
      (mainRun upgradingMigrators downgradingMigrators noSchemaInput).1 := by decide

/-! ## C8 -/

/-- C8 counterexample: with two forward migrators where one is expected, the run
logs the mismatch and then connects and migrates anyway — the connection is opened
and a migration step is applied despite the failed startup check. -/
theorem mismatchStillConnectsAndMigrates :
    (mainRun mismatchUpMigrators downgradingMigrators upgradeInput).1 =
      [Event.logError "NoEnoughUpgradeMigrators", Event.connect, Event.upMigrator 0,
        Event.logInfo "UpgradeFinished", Event.writeVersion "v0.2.0"] := by decide

/-- C8 amended: a migrator-count mismatch is logged as a configuration error before
any connection is attempted, but it is not fatal: the rest of the run is unchanged,
and in particular the connection is still opened whenever `connectLoop` succeeds. -/
theorem mismatchLoggedBeforeConnectNotFatal (upMigs downMigs : List (Option String))
    (inp : StoreInput) (h : upMigs.length ≠ expectedNumMigrators) :
    (mainRun upMigs downMigs inp).1 =
      Event.logError "NoEnoughUpgradeMigrators" ::
        ((if downMigs.length ≠ expectedNumMigrators
            then [Event.logError "NoEnoughDowngradeMigrators"] else []) ++
          (mainRunBody inp).1) ∧
    (inp.connectOk = true → Event.connect ∈ (mainRun upMigs downMigs inp).1) := by
  constructor
  · simp [mainRun, startupCheckEvents, if_pos h]
  · intro hc
    have hbody : (mainRunBody inp).1 = Event.connect :: (afterConnectRun inp).1 := by
      simp [mainRunBody, hc]
    simp [mainRun, hbody]

/-- C8 amended witness: the mismatched configuration over a healthy store — the
error is the first event, and the connection event is present. -/
theorem mismatchLoggedBeforeConnectNotFatal_witness :
    (mainRun mismatchUpMigrators downgradingMigrators upgradeInput).1 =
      Event.logError "NoEnoughUpgradeMigrators" ::
        ((if downgradingMigrators.length ≠ expectedNumMigrators
            then [Event.logError "NoEnoughDowngradeMigrators"] else []) ++
          (mainRunBody upgradeInput).1) ∧
    (upgradeInput.connectOk = true →
        Event.connect ∈ (mainRun mismatchUpMigrators downgradingMigrators upgradeInput).1) :=
  mismatchLoggedBeforeConnectNotFatal mismatchUpMigrators downgradingMigrators
    upgradeInput (by decide)

/-! ## C9 -/

/-- C9: the size parser maps "500Mi" to exactly 500 * 1024^2 bytes and "2.5G" to
2.5 * 1000^3 = 2500000000 bytes, and rejects "abc" with the invalid-size-format
error. -/
theorem parseSizeSpec :
    parseSize "500Mi" = Except.ok (500 * 1024 ^ 2) ∧
    parseSize "2.5G" = Except.ok 2500000000 ∧
    parseSize "abc" = Except.error "invalid size format" := by decide

/-! ## C10 -/

/-- C10: a missing version table is recognized only by substring-matching the
literal "Table default.migrate_version doesn't exist" (so only for the database
named `default`); any version-read error not containing that literal — including
the same condition under another database name — is retried (every
`queryRetryIntervalSeconds` = 1s up to `queryTimeoutSeconds` = 10s) and then
surfaced as the poll-timeout error, never as the no-schema outcome, while an error
containing the literal takes the legacy flows fallback. -/
theorem unknownTableDetectionBySubstringOnly (msg : String)
    (fq : Except String Nat) (h : containsSubstr msg unknownTableMsg = false) :
    getDataVersion (Except.error msg) fq = Except.error pollTimeoutMsg ∧
    getDataVersion (Except.error unknownTableMsg) fq = legacyFallback fq ∧
    queryRetryIntervalSeconds = 1 ∧ queryTimeoutSeconds = 10 := by
  refine ⟨?_, ?_, rfl, rfl⟩
  · simp [getDataVersion, h]
  · simp [getDataVersion, show containsSubstr unknownTableMsg unknownTableMsg = true
      from by decide]

/-- C10 witness: the identical missing-table condition reported for a database
named `theia` is not recognized — the read ends in the poll-timeout error although
the flows table exists. -/
theorem unknownTableDetectionBySubstringOnly_witness :
    getDataVersion (Except.error "Table theia.migrate_version doesn't exist")
        (Except.ok 42) = Except.error pollTimeoutMsg ∧
    getDataVersion (Except.error unknownTableMsg) (Except.ok 42) =
      legacyFallback (Except.ok 42) ∧
    queryRetryIntervalSeconds = 1 ∧ queryTimeoutSeconds = 10 :=
  unknownTableDetectionBySubstringOnly "Table theia.migrate_version doesn't exist"
    (Except.ok 42) (by decide)

end Theia
